import Mathlib

/-!
Shallow embedding of `src/Traffic_Signs_Classification.py`, a single linear
script that loads three pickled traffic-sign datasets, preprocesses them
(shuffle, grayscale, normalize), builds and trains a LeNet-style Keras model,
evaluates it, and renders diagnostic plots.

Numeric arrays are modelled as nested lists over `ℚ` (exact arithmetic in
place of floating point).  The script itself is modelled as a flat list of
statement steps in source order, over which the structural claims (statement
order, variable assignment counts, error propagation, I/O surface) are
decided by computation.
-/

namespace TrafficSigns

/-! ### Elementwise array transforms (lines 98-120 of the source) -/

/-- A 4-D numpy array `(N, H, W, D)` as nested lists: images, rows, pixels,
channels. -/
abbrev Arr4 := List (List (List (List ℚ)))

/-- `np.sum(X / 3, axis = 3, keepdims = True)` (source lines 99, 103, 107):
every channel value is divided by 3, then the channel axis is summed,
keeping a singleton channel dimension. -/
def grayscaleOf (X : Arr4) : Arr4 :=
  X.map fun img => img.map fun row => row.map fun px =>
    [(px.map (fun c => c / 3)).sum]

/-- The elementwise normalization `(x - 128) / 128` (source lines 112, 116,
119). -/
def normalizeVal (x : ℚ) : ℚ := (x - 128) / 128

/-- `(X_gray - 128) / 128` applied to a whole 4-D array. -/
def normalizeArr (X : Arr4) : Arr4 :=
  X.map fun img => img.map fun row => row.map fun px => px.map normalizeVal

/-- `shape4Is X n h w d` decides whether the nested-list array `X` is a
rectangular array of shape `(n, h, w, d)`. -/
def shape4Is (X : Arr4) (n h w d : Nat) : Bool :=
  X.length == n && X.all fun img =>
    img.length == h && img.all fun row =>
      row.length == w && row.all fun px => px.length == d

/-- Membership of a value in a 4-D array. -/
def entryMem (x : ℚ) (X : Arr4) : Prop :=
  ∃ img ∈ X, ∃ row ∈ img, ∃ px ∈ row, x ∈ px

instance (x : ℚ) (X : Arr4) : Decidable (entryMem x X) := by
  unfold entryMem; infer_instance

/-! ### The model layer stack (source lines 170-260) -/

/-- Activation functions named literally in the source. -/
inductive Activation where
  | relu
  | softmax
deriving DecidableEq, Repr

/-- One Keras layer as constructed by the script, with its literal
hyperparameters. -/
inductive Layer where
  | conv2D (filters : Nat) (kernel : Nat × Nat) (activation : Activation)
      (inputShape : Option (Nat × Nat × Nat))
  | averagePooling2D
  | flatten
  | dense (units : Nat) (activation : Activation)
deriving DecidableEq, Repr

/-- The layer stack built by the script's `cnn_model.add(...)` calls, in
source order (lines 171, 174, 198, 201, 212, 231, 245, 260). -/
def cnn_model_layers : List Layer :=
  [ .conv2D 6 (5, 5) .relu (some (32, 32, 1))
  , .averagePooling2D
  , .conv2D 16 (5, 5) .relu none
  , .averagePooling2D
  , .flatten
  , .dense 120 .relu
  , .dense 84 .relu
  , .dense 43 .softmax ]

/-- Units of the final layer of a stack (0 if the stack is empty or ends in a
non-dense layer). -/
def outputUnits (layers : List Layer) : Nat :=
  match layers.getLast? with
  | some (.dense u _) => u
  | _ => 0

/-! ### The script as a statement sequence

Each constructor is one Python statement kind occurring in (or expressible
in) the script.  `tryStmt` models a Python `try/except` block; the script
never contains one.  `setItemAssign` models an in-place element assignment
`arr[...] = v`; the script never contains one either. -/

/-- One statement of the script. -/
inductive Step where
  /-- `import module` -/
  | importStmt (module : String)
  /-- `with open(path, mode = 'rb') as f: var = pickle.load(f)` -/
  | openPickle (path : String) (var : String)
  /-- `xVar, yVar = src[xKey], src[yKey]` -/
  | bindSplit (xVar yVar src xKey yKey : String)
  /-- a bare expression statement, e.g. `X_train.shape` or `y_train[i]` -/
  | exprQuery (expr : String)
  /-- `dst = expr` for a plain expression -/
  | assignExpr (dst expr : String)
  /-- `plt.<attr>(arg)` — a matplotlib.pyplot attribute access and call -/
  | pltCall (attr : String) (arg : String)
  /-- `xVar, yVar = shuffle(xVar, yVar)` -/
  | shuffleCall (xVar yVar : String)
  /-- `dst = np.sum(src / 3, axis = 3, keepdims = True)` -/
  | grayscaleAssign (dst src : String)
  /-- `dst = (src - 128) / 128` -/
  | normalizeAssign (dst src : String)
  /-- `cnn_model.add(<layer>)` -/
  | addLayer (l : Layer)
  /-- `cnn_model.compile(...)` -/
  | compileCall
  /-- `history = cnn_model.fit(..., batch_size, epochs, verbose, ...)` -/
  | fitCall (batchSize epochs verbose : Nat)
  /-- `score = cnn_model.evaluate(X_test_gray_norm, y_test)` -/
  | evaluateCall
  /-- `print(fmt.format(round(score[1] * 100, digits)))` -/
  | printAccuracy (fmt : String) (digits : Nat)
  /-- `dst = history.history[key]` -/
  | historyExtract (dst key : String)
  /-- `epochs = range(1, len(accuracy) + 1)` -/
  | epochsRange
  /-- `plt.show()` — renders the current figure -/
  | showPlot
  /-- `predicted_x = cnn_model.predict(X_test_gray_norm)` -/
  | predictCall
  /-- `classes_x = np.argmax(predicted_x, axis = 1)` -/
  | argmaxAssign
  /-- `cm = confusion_matrix(y_true, classes_x)` -/
  | confusionMatrixCall
  /-- `sns.heatmap(cm, annot = True)` — renders the heatmap figure -/
  | heatmapRender
  /-- lines 428-437: `plt.subplots` grid of 25 sample images with titles —
  renders the grid figure -/
  | gridRender
  /-- a Python `try: body except: handler` block (absent from the script) -/
  | tryStmt (body : List Step) (handler : List Step)
  /-- an in-place element assignment `var[...] = v` (absent from the script) -/
  | setItemAssign (var : String)

instance : Inhabited Step := ⟨Step.compileCall⟩

/-- Script statements, lines 13-81 (imports, pickle loads, split binds, shape queries, sample image displays including the typo at line 80). -/
def scriptChunk1 : List Step :=
  [ .importStmt "numpy"                                               -- line 13
  , .importStmt "pandas"                                              -- line 14
  , .importStmt "matplotlib.pyplot"                                   -- line 17
  , .importStmt "seaborn"                                             -- line 18
  , .importStmt "pickle"                                              -- line 21
  , .openPickle "./traffic-signs-data/train.p" "train"                -- lines 33-34
  , .openPickle "./traffic-signs-data/valid.p" "valid"                -- lines 36-37
  , .openPickle "./traffic-signs-data/test.p" "test"                  -- lines 39-40
  , .bindSplit "X_train" "y_train" "train" "features" "labels"        -- line 47
  , .bindSplit "X_validation" "y_validation" "valid" "features" "labels" -- line 50
  , .bindSplit "X_test" "y_test" "test" "features" "labels"           -- line 53
  , .exprQuery "X_train.shape"                                        -- line 56
  , .exprQuery "y_train.shape"                                        -- line 57
  , .exprQuery "X_validation.shape"                                   -- line 59
  , .exprQuery "y_validation.shape"                                   -- line 60
  , .exprQuery "X_test.shape"                                         -- line 62
  , .exprQuery "y_test.shape"                                         -- line 63
  , .assignExpr "i" "23"                                              -- line 72
  , .pltCall "imshow" "X_train[i]"                                    -- line 74
  , .exprQuery "y_train[i]"                                           -- line 75
  , .pltCall "imshow" "X_validation[i]"                               -- line 77
  , .exprQuery "y_validation[i]"                                      -- line 78
  , .pltCall "imshwo" "X_test[i]"                                     -- line 80 (typo)
  , .exprQuery "y_test[i]"                                            -- line 81
  ]

/-- Script statements, lines 95-167 (shuffle, grayscale and normalization assigns, keras imports). -/
def scriptChunk2 : List Step :=
  [ .importStmt "sklearn.utils.shuffle"                               -- line 95
  , .shuffleCall "X_train" "y_train"                                  -- line 96
  , .grayscaleAssign "X_train_gray" "X_train"                         -- line 99
  , .exprQuery "X_train_gray.shape"                                   -- line 100
  , .pltCall "imshow" "X_train_gray[i].squeeze()"                     -- line 101
  , .grayscaleAssign "X_validation_gray" "X_validation"               -- line 103
  , .exprQuery "X_validation_gray.shape"                              -- line 104
  , .pltCall "imshow" "X_validation_gray[i].squeeze()"                -- line 105
  , .grayscaleAssign "X_test_gray" "X_test"                           -- line 107
  , .exprQuery "X_test_gray.shape"                                    -- line 108
  , .pltCall "imshow" "X_test_gray[i].squeeze()"                      -- line 109
  , .normalizeAssign "X_train_gray_norm" "X_train_gray"               -- line 112
  , .pltCall "imshow" "X_train_gray_norm[i].squeeze()"                -- line 114
  , .normalizeAssign "X_validation_gray_norm" "X_validation_gray"     -- line 116
  , .pltCall "imshow" "X_validation_gray_norm[i].squeeze()"           -- line 117
  , .normalizeAssign "X_test_gray_norm" "X_test_gray"                 -- line 119
  , .pltCall "imshow" "X_test_gray_norm[i].squeeze()"                 -- line 120
  , .importStmt "keras.models.Sequential"                             -- line 164
  , .importStmt "keras.layers"                                        -- line 165
  , .importStmt "keras.optimizers.Adam"                               -- line 166
  , .importStmt "keras.callbacks.TensorBoard"                         -- line 167
  , .assignExpr "cnn_model" "Sequential()"                            -- line 170
  , .addLayer (.conv2D 6 (5, 5) .relu (some (32, 32, 1)))             -- line 171
  , .addLayer .averagePooling2D                                       -- line 174
  ]

/-- Script statements, lines 170-326 (model construction, compile, fit, evaluate, accuracy print, history extraction). -/
def scriptChunk3 : List Step :=
  [ .addLayer (.conv2D 16 (5, 5) .relu none)                          -- line 198
  , .addLayer .averagePooling2D                                       -- line 201
  , .addLayer .flatten                                                -- line 212
  , .addLayer (.dense 120 .relu)                                      -- line 231
  , .addLayer (.dense 84 .relu)                                       -- line 245
  , .addLayer (.dense 43 .softmax)                                    -- line 260
  , .compileCall                                                      -- line 283
  , .fitCall 500 5 1                                                  -- lines 292-297
  , .evaluateCall                                                     -- line 306
  , .printAccuracy "Test Accuracy: \x7b\x7d%" 2                       -- line 309
  , .exprQuery "history.history.keys()"                               -- line 318
  , .historyExtract "accuracy" "accuracy"                             -- line 320
  , .historyExtract "loss" "loss"                                     -- line 322
  , .historyExtract "valid_loss" "val_loss"                           -- line 323
  , .historyExtract "valid_accuracy" "val_accuracy"                   -- line 324
  , .epochsRange                                                      -- line 326
  ]

/-- Script statements, lines 337-437 (six diagnostic plot blocks, predict, argmax, confusion matrix, heatmap and sample grid). -/
def scriptChunk4 : List Step :=
  [ .pltCall "scatter" "epochs, accuracy"                             -- line 337
  , .pltCall "plot" "epochs, accuracy"                                -- line 338
  , .pltCall "title" "Training Accuracy over Epochs"                  -- line 339
  , .pltCall "xlabel" "Epochs"                                        -- line 340
  , .pltCall "ylabel" "Accuracy"                                      -- line 341
  , .showPlot                                                         -- line 343
  , .pltCall "scatter" "epochs, loss"                                 -- line 346
  , .pltCall "plot" "epochs, loss"                                    -- line 347
  , .pltCall "title" "Training Loss over Epochs"                      -- line 348
  , .pltCall "xlabel" "Epochs"                                        -- line 349
  , .pltCall "ylabel" "Loss"                                          -- line 350
  , .showPlot                                                         -- line 352
  , .pltCall "scatter" "epochs, valid_accuracy"                       -- line 355
  , .pltCall "plot" "epochs, valid_accuracy"                          -- line 356
  , .pltCall "title" "Validation Accuracy over Epochs"                -- line 357
  , .pltCall "xlabel" "Epochs"                                        -- line 358
  , .pltCall "ylabel" "Accuracy"                                      -- line 359
  , .showPlot                                                         -- line 361
  , .pltCall "scatter" "epochs, valid_loss"                           -- line 364
  , .pltCall "plot" "epochs, valid_loss"                              -- line 365
  , .pltCall "title" "Validation Loss over Epochs"                    -- line 366
  , .pltCall "xlabel" "Epochs"                                        -- line 367
  , .pltCall "ylabel" "Loss"                                          -- line 368
  , .showPlot                                                         -- line 370
  , .pltCall "plot" "epochs, accuracy"                                -- line 373
  , .pltCall "plot" "epochs, valid_accuracy"                          -- line 374
  , .pltCall "scatter" "epochs, accuracy"                             -- line 376
  , .pltCall "scatter" "epochs, valid_accuracy"                       -- line 377
  , .pltCall "title" "Training vs. Validation Accuracy"               -- line 380
  , .pltCall "xlabel" "Epochs"                                        -- line 381
  , .pltCall "ylabel" "Accuracy"                                      -- line 382
  , .pltCall "legend" "Training, Validation"                          -- line 384
  , .showPlot                                                         -- line 386
  , .pltCall "plot" "epochs, loss"                                    -- line 389
  , .pltCall "plot" "epochs, valid_loss"                              -- line 390
  , .pltCall "scatter" "epochs, loss"                                 -- line 392
  , .pltCall "scatter" "epochs, valid_loss"                           -- line 393
  , .pltCall "title" "Training vs. Validation Loss"                   -- line 395
  , .pltCall "xlabel" "Epochs"                                        -- line 396
  , .pltCall "ylabel" "Loss"                                          -- line 397
  , .pltCall "legend" "Training, Validation"                          -- line 399
  , .showPlot                                                         -- line 401
  , .predictCall                                                      -- line 409
  , .argmaxAssign                                                     -- line 410
  , .assignExpr "y_true" "y_test"                                     -- line 412
  , .importStmt "sklearn.metrics.confusion_matrix"                    -- line 415
  , .confusionMatrixCall                                              -- line 417
  , .pltCall "figure" "figsize = (25, 25)"                            -- line 419
  , .heatmapRender                                                    -- line 420
  , .gridRender                                                       -- lines 428-437
  ]

/-- The script of `src/Traffic_Signs_Classification.py`, statement by
statement in source order. -/
def script : List Step :=
  scriptChunk1 ++ scriptChunk2 ++ scriptChunk3 ++ scriptChunk4

/-! ### Extractors and statement-kind predicates over the script -/

/-- `(path, variable)` of each pickle load. -/
def pickleOpens (l : List Step) : List (String × String) :=
  l.filterMap fun s => match s with
    | .openPickle p v => some (p, v)
    | _ => none

/-- The five strings of each `x, y = d[kx], d[ky]` split bind. -/
def splitBinds (l : List Step) : List (String × String × String × String × String) :=
  l.filterMap fun s => match s with
    | .bindSplit x y src kx ky => some (x, y, src, kx, ky)
    | _ => none

/-- `(dst, src)` of each grayscale conversion assignment. -/
def grayscaleAssigns (l : List Step) : List (String × String) :=
  l.filterMap fun s => match s with
    | .grayscaleAssign d src => some (d, src)
    | _ => none

/-- `(dst, src)` of each normalization assignment. -/
def normalizeAssigns (l : List Step) : List (String × String) :=
  l.filterMap fun s => match s with
    | .normalizeAssign d src => some (d, src)
    | _ => none

/-- The layers passed to `cnn_model.add`, in order. -/
def addedLayers (l : List Step) : List Layer :=
  l.filterMap fun s => match s with
    | .addLayer layer => some layer
    | _ => none

/-- The `(xVar, yVar)` argument pairs of each `shuffle` call. -/
def shuffleCalls (l : List Step) : List (String × String) :=
  l.filterMap fun s => match s with
    | .shuffleCall x y => some (x, y)
    | _ => none

/-- `(format string, rounding digits)` of each accuracy print. -/
def printCalls (l : List Step) : List (String × Nat) :=
  l.filterMap fun s => match s with
    | .printAccuracy fmt d => some (fmt, d)
    | _ => none

/-- Variables rebound (assigned) by a step. -/
def assigns : Step → List String
  | .importStmt _ => []
  | .openPickle _ v => [v]
  | .bindSplit x y _ _ _ => [x, y]
  | .exprQuery _ => []
  | .assignExpr d _ => [d]
  | .pltCall _ _ => []
  | .shuffleCall x y => [x, y]
  | .grayscaleAssign d _ => [d]
  | .normalizeAssign d _ => [d]
  | .addLayer _ => []
  | .compileCall => []
  | .fitCall _ _ _ => ["history"]
  | .evaluateCall => ["score"]
  | .printAccuracy _ _ => []
  | .historyExtract d _ => [d]
  | .epochsRange => ["epochs"]
  | .showPlot => []
  | .predictCall => ["predicted_x"]
  | .argmaxAssign => ["classes_x"]
  | .confusionMatrixCall => ["cm"]
  | .heatmapRender => []
  | .gridRender => ["length", "width", "fig", "axes", "i"]
  | .tryStmt _ _ => []
  | .setItemAssign _ => []

/-- How many statements of the script assign to variable `v`. -/
def assignCount (v : String) : Nat :=
  ((script.map assigns).flatten).count v

/-- The six variables that hold the loaded dataset arrays (lines 47-53). -/
def datasetVars : List String :=
  ["X_train", "y_train", "X_validation", "y_validation", "X_test", "y_test"]

def isLoad : Step → Bool
  | .openPickle _ _ => true
  | _ => false

/-- A derivation of a grayscale or normalized tensor. -/
def isDerive : Step → Bool
  | .grayscaleAssign _ _ => true
  | .normalizeAssign _ _ => true
  | _ => false

def isAddLayer : Step → Bool
  | .addLayer _ => true
  | _ => false

def isCompile : Step → Bool
  | .compileCall => true
  | _ => false

def isFit : Step → Bool
  | .fitCall _ _ _ => true
  | _ => false

def isEvaluate : Step → Bool
  | .evaluateCall => true
  | _ => false

def isPredict : Step → Bool
  | .predictCall => true
  | _ => false

/-- A figure-rendering statement: `plt.show()`, the seaborn heatmap, or the
25-image sample grid. -/
def isRender : Step → Bool
  | .showPlot => true
  | .heatmapRender => true
  | .gridRender => true
  | _ => false

def isShuffle : Step → Bool
  | .shuffleCall _ _ => true
  | _ => false

/-- Is the step a `try/except` block? -/
def isTry : Step → Bool
  | .tryStmt _ _ => true
  | _ => false

/-- Is the step an in-place element assignment `arr[...] = v`? -/
def isSetItem : Step → Bool
  | .setItemAssign _ => true
  | _ => false

/-- Position of the first step satisfying `p` in the script. -/
def firstIdx (p : Step → Bool) : Nat := script.findIdx p

/-- Every index of a step satisfying `p` in the script. -/
def idxsWhere (p : Step → Bool) : List Nat :=
  (List.range script.length).filter fun i => p (script.getD i default)

/-! ### Error semantics

Python exception propagation for the statement sequence: a step either
succeeds or raises, a `try` block catches what its body raises, and an
uncaught exception terminates the run.  The fault behaviour of the
environment is a parameter `err`; the concrete fault of this script is the
`AttributeError` raised by the typo'd attribute lookup `plt.imshwo`. -/

/-- A Python exception value. -/
inductive PyError where
  | attributeError (module attr : String)
  | externalError (msg : String)
deriving DecidableEq, Repr

/-- The `matplotlib.pyplot` attributes the script uses; `imshwo` (line 80)
is not one of them, so looking it up raises `AttributeError`. -/
def pltAttrs : List String :=
  ["imshow", "scatter", "plot", "title", "xlabel", "ylabel", "show",
   "legend", "figure", "subplots"]

/-- The fault actually present in the source: a `plt.<attr>` call raises
`AttributeError` exactly when `attr` is not an attribute of
`matplotlib.pyplot`; every other statement succeeds (assuming well-formed
data files). -/
def stepFault : Step → Option PyError
  | .pltCall attr _ =>
      if pltAttrs.contains attr then none
      else some (.attributeError "matplotlib.pyplot" attr)
  | _ => none

/-- Run the statement list under fault oracle `err`: the first uncaught
exception aborts the run; a `try` block's body exception transfers control
to its handler. -/
def runSteps (err : Step → Option PyError) : List Step → Except PyError Unit
  | [] => .ok ()
  | .tryStmt body handler :: rest =>
      match runSteps err body with
      | .ok _ => runSteps err rest
      | .error _ =>
          match runSteps err handler with
          | .ok _ => runSteps err rest
          | .error e => .error e
  | s :: rest =>
      match err s with
      | some e => .error e
      | none => runSteps err rest

/-! ### The accuracy print (source line 309)

`print("Test Accuracy: \x7b\x7d%".format(round(score[1] * 100, 2)))`:
Python's `round` rounds half to even. -/

/-- Round to the nearest integer, ties to the even integer (Python's
`round` tie-breaking rule). -/
def roundHalfEven (z : ℚ) : ℤ :=
  if Int.fract z < 1 / 2 then ⌊z⌋
  else if 1 / 2 < Int.fract z then ⌊z⌋ + 1
  else if 2 ∣ ⌊z⌋ then ⌊z⌋ else ⌊z⌋ + 1

/-- Python's `round(x, d)` for nonnegative digit count `d`. -/
def pyRound (x : ℚ) (d : Nat) : ℚ :=
  (roundHalfEven (x * 10 ^ d) : ℚ) / 10 ^ d

/-- The value the script prints: `round(score[1] * 100, 2)` where
`score[1]` is the accuracy returned by `evaluate`. -/
def printedAccuracy (score1 : ℚ) : ℚ :=
  pyRound (score1 * 100) 2

/-! ### General facts about error propagation -/

/-- For a statement that is not a `try` block, running the sequence either
aborts with that statement's exception or continues with the rest. -/
theorem runSteps_cons_of_not_try (err : Step → Option PyError) (s : Step)
    (rest : List Step) (h : isTry s = false) :
    runSteps err (s :: rest) =
      match err s with
      | some e => .error e
      | none => runSteps err rest := by
  cases s <;> first
    | exact Bool.noConfusion h
    | rfl
    | simp [runSteps]

/-- The first fault of a statement list, ignoring `try` structure (adequate
for handler-free lists, by `runSteps_eq_firstFault`). -/
def firstFault (err : Step → Option PyError) : List Step → Except PyError Unit
  | [] => .ok ()
  | s :: rest =>
      match err s with
      | some e => .error e
      | none => firstFault err rest

/-- On a handler-free statement list the run aborts at the first fault. -/
theorem runSteps_eq_firstFault (err : Step → Option PyError) :
    ∀ l : List Step, l.all (fun s => !isTry s) = true →
      runSteps err l = firstFault err l := by
  intro l
  induction l with
  | nil => intro _; simp [runSteps, firstFault]
  | cons s rest ih =>
      intro hfree
      simp only [List.all_cons, Bool.and_eq_true] at hfree
      rw [runSteps_cons_of_not_try err s rest (by simpa using hfree.1)]
      cases he : err s with
      | some e => simp [firstFault, he]
      | none => simpa [firstFault, he] using ih hfree.2

/-- In a handler-free statement list, if some statement faults, the run
terminates with an uncaught exception. -/
theorem runSteps_error_of_fault (err : Step → Option PyError) :
    ∀ l : List Step, l.all (fun s => !isTry s) = true →
      l.any (fun s => !(err s).isNone) = true →
      ∃ e : PyError, runSteps err l = .error e := by
  intro l
  induction l with
  | nil => intro _ h; simp at h
  | cons s rest ih =>
      intro hfree hfault
      simp only [List.all_cons, Bool.and_eq_true] at hfree
      rw [runSteps_cons_of_not_try err s rest (by simpa using hfree.1)]
      cases he : err s with
      | some e => exact ⟨e, rfl⟩
      | none =>
          simp only [List.any_cons, Bool.or_eq_true] at hfault
          rcases hfault with h1 | h2
          · rw [he] at h1; simp at h1
          · exact ih hfree.2 h2

/-- In a handler-free statement list, any exception the run terminates with
was raised by one of its statements — nothing intercepts or rewrites it. -/
theorem runSteps_error_from_step (err : Step → Option PyError) :
    ∀ l : List Step, l.all (fun s => !isTry s) = true →
      ∀ e : PyError, runSteps err l = .error e →
        l.any (fun s => err s == some e) = true := by
  intro l
  induction l with
  | nil => intro _ e h; simp [runSteps] at h
  | cons s rest ih =>
      intro hfree e h
      simp only [List.all_cons, Bool.and_eq_true] at hfree
      rw [runSteps_cons_of_not_try err s rest (by simpa using hfree.1)] at h
      simp only [List.any_cons, Bool.or_eq_true]
      cases he : err s with
      | some e₂ =>
          rw [he] at h
          simp only at h
          cases h
          exact Or.inl (by simp)
      | none =>
          rw [he] at h
          simp only at h
          exact Or.inr (ih hfree.2 e h)

/-! ### Per-pixel value of the grayscale conversion, `np.argmax`, and the
external `shuffle` utility -/

/-- The value `np.sum(X / 3, axis = 3)` computes at one RGB pixel:
`r / 3 + g / 3 + b / 3`. -/
def grayOfRGB (r g b : ℚ) : ℚ :=
  ([r, g, b].map (fun c => c / 3)).sum

/-- Accumulator loop of `np.argmax`: `m` is the running maximum, `best` its
index, `i` the index of the head of the remaining list. -/
def argmaxAux : List ℚ → ℚ → Nat → Nat → Nat
  | [], _, _, best => best
  | x :: xs, m, i, best =>
      if m < x then argmaxAux xs x (i + 1) i
      else argmaxAux xs m (i + 1) best

/-- `np.argmax` over a 1-D array: the index of the first occurrence of the
maximal element (0 on the empty array, on which numpy raises instead;
`predict` rows are nonempty). -/
def np_argmax : List ℚ → Nat
  | [] => 0
  | x :: xs => argmaxAux xs x 1 0

/-- `np.argmax(predicted_x, axis = 1)` (line 410): row-wise argmax. -/
def np_argmax_axis1 (rows : List (List ℚ)) : List Nat :=
  rows.map np_argmax

/-- `sklearn.utils.shuffle(X, y)` (line 96) is external to the repository;
per its contract (and the source comment: "the labels still correspond to
the correct images because the shuffle function reorders them the same
way") it draws one random permutation of the index range and applies it to
every argument.  `perm` is that permutation as the list of source indices;
`d` is an unused out-of-range default prescribed by the total `getD`. -/
def shuffleWith {α : Type} (d : α) (perm : List Nat) (xs : List α) : List α :=
  perm.map fun idx => xs.getD idx d

/-! ### Helper lemmas -/

/-- `getD` commutes with `map` when the default is mapped as well. -/
theorem getD_map_eq {α β : Type} (f : α → β) (d : α) :
    ∀ (l : List α) (i : Nat), (l.map f).getD i (f d) = f (l.getD i d) := by
  intro l
  induction l with
  | nil => intro i; simp
  | cons a l ih =>
      intro i
      cases i with
      | zero => simp
      | succ n => simp [ih n]

/-- The running argmax index stays below the index bound. -/
theorem argmaxAux_lt (xs : List ℚ) :
    ∀ (m : ℚ) (i best : Nat), best < i →
      argmaxAux xs m i best < i + xs.length := by
  induction xs with
  | nil =>
      intro m i best h
      simpa [argmaxAux] using h
  | cons x xs ih =>
      intro m i best h
      simp only [argmaxAux, List.length_cons]
      by_cases hc : m < x
      · rw [if_pos hc]
        have := ih x (i + 1) i (Nat.lt_succ_self i)
        omega
      · rw [if_neg hc]
        have := ih m (i + 1) best (Nat.lt_succ_of_lt h)
        omega

/-- Mapping an index-lookup pair over `range n` reconstitutes the zip. -/
theorem range_map_getD_zip {α β : Type} (dx : α) (dy : β)
    (xs : List α) (ys : List β) (n : Nat)
    (hx : xs.length = n) (hy : ys.length = n) :
    (List.range n).map (fun idx => (xs.getD idx dx, ys.getD idx dy)) =
      xs.zip ys := by
  apply List.ext_getElem
  · simp [hx, hy]
  · intro i h1 h2
    have hi : i < n := by simpa using h1
    simp only [List.getElem_map, List.getElem_range, List.getElem_zip]
    rw [List.getD_eq_getElem _ _ (hx ▸ hi), List.getD_eq_getElem _ _ (hy ▸ hi)]

/-! ### Claim theorems -/

set_option maxRecDepth 8000

/-- C3 (counterexample): the claim that the script builds the layer stack
with exactly six layer-adding calls is false: the script issues eight
`cnn_model.add` calls (lines 171, 174, 198, 201, 212, 231, 245, 260). -/
theorem addCalls_ne_six : ¬ ((addedLayers script).length = 6) := by decide

/-- C3 (amended): the model is constructed as a fixed network by exactly
eight layer-adding calls on the Sequential model — Conv2D(6, 5×5, relu,
input 32×32×1), AveragePooling2D, Conv2D(16, 5×5, relu), AveragePooling2D,
Flatten, Dense(120, relu), Dense(84, relu), Dense(43, softmax) — each with
literal hyperparameters. -/
theorem addCalls_eq_layers :
    addedLayers script = cnn_model_layers ∧
    (addedLayers script).length = 8 := by
  exact ⟨by decide, by decide⟩

/-- C4: the script contains no error handling: no statement is a
`try/except` block; consequently, under any fault behaviour, if any
statement faults the run terminates with an exception, and any exception
the run terminates with is exactly one raised by a statement (no recovery
path rewrites or absorbs it); concretely, the typo'd call `plt.imshwo`
(line 80) terminates the run with an unhandled `AttributeError`. -/
theorem script_error_handling :
    (script.all fun s => !isTry s) = true ∧
    (∀ err : Step → Option PyError,
      (script.any fun s => !(err s).isNone) = true →
      ∃ e : PyError, runSteps err script = .error e) ∧
    (∀ err : Step → Option PyError, ∀ e : PyError,
      runSteps err script = .error e →
      (script.any fun s => err s == some e) = true) ∧
    runSteps stepFault script =
      .error (.attributeError "matplotlib.pyplot" "imshwo") := by
  refine ⟨by decide, ?_, ?_, ?_⟩
  · intro err h
    exact runSteps_error_of_fault err script (by decide) h
  · intro err e h
    exact runSteps_error_from_step err script (by decide) e h
  · rw [runSteps_eq_firstFault stepFault script (by decide)]
    rfl

/-- Witness for C4: the concrete fault behaviour of the source (the
`plt.imshwo` typo) satisfies the hypothesis, and the run indeed terminates
with an exception. -/
theorem script_error_handling_witness :
    ∃ e : PyError, runSteps stepFault script = .error e :=
  script_error_handling.2.1 stepFault (by decide)

/-- C5 (counterexample): the claim that the eight plot renders all come
after the predict call is false: a render (the first `plt.show()`, line
343) precedes `cnn_model.predict` (line 409); in fact six of the eight
renders do. -/
theorem renders_not_all_after_predict :
    ¬ (∀ i ∈ idxsWhere isRender, firstIdx isPredict < i) := by decide

/-- C5 (amended): the script is a single statement sequence that performs,
in this order: three pickle loads, then the grayscale/normalize
derivations, then the eight layer-adding calls, then compile, then exactly
one fit, then exactly one evaluate, then six diagnostic plot renders, then
exactly one predict, then the final two renders (confusion-matrix heatmap
and sample grid) — eight renders in total, all after the evaluate call. -/
theorem script_pipeline_order :
    script.countP isLoad = 3 ∧
    (∀ i ∈ idxsWhere isLoad, ∀ j ∈ idxsWhere isDerive, i < j) ∧
    (∀ j ∈ idxsWhere isDerive, ∀ k ∈ idxsWhere isAddLayer, j < k) ∧
    (∀ k ∈ idxsWhere isAddLayer, k < firstIdx isCompile) ∧
    firstIdx isCompile < firstIdx isFit ∧
    script.countP isFit = 1 ∧
    script.countP isEvaluate = 1 ∧
    script.countP isPredict = 1 ∧
    firstIdx isFit < firstIdx isEvaluate ∧
    firstIdx isEvaluate < firstIdx isPredict ∧
    script.countP isRender = 8 ∧
    (∀ i ∈ idxsWhere isRender, firstIdx isEvaluate < i) ∧
    (idxsWhere isRender).countP (fun i => i < firstIdx isPredict) = 6 ∧
    (idxsWhere isRender).countP (fun i => firstIdx isPredict < i) = 2 := by
  decide

/-- C6 (counterexample): the claim that no dataset variable is rebound
after its initial assignment is false: `X_train, y_train =
shuffle(X_train, y_train)` (line 96) rebinds `X_train` and `y_train`, so
not every dataset variable is assigned exactly once. -/
theorem dataset_vars_not_all_assigned_once :
    ¬ (∀ v ∈ datasetVars, assignCount v = 1) := by decide

/-- C6 (amended): no statement mutates an array in place; the validation
and test dataset variables are assigned exactly once; `X_train` and
`y_train` are assigned exactly twice — the initial bind (line 47) plus the
single shuffle rebinding (line 96) — and no statement after the shuffle
assigns either of them again. -/
theorem dataset_var_assignment_profile :
    script.countP isSetItem = 0 ∧
    assignCount "X_train" = 2 ∧
    assignCount "y_train" = 2 ∧
    assignCount "X_validation" = 1 ∧
    assignCount "y_validation" = 1 ∧
    assignCount "X_test" = 1 ∧
    assignCount "y_test" = 1 ∧
    shuffleCalls script = [("X_train", "y_train")] ∧
    (∀ i ∈ idxsWhere (fun s =>
        (assigns s).contains "X_train" || (assigns s).contains "y_train"),
      i ≤ firstIdx isShuffle) := by
  decide

/-- C7: the script's input interface is exactly three fixed-path pickle
files, each deserialized into a mapping that is accessed only at the keys
`features` and `labels`; its sole authored console output statement prints
the accuracy as a percentage rounded (half to even, as Python's `round`)
to two decimal places — the printed value times 100 is an integer. -/
theorem script_io_surface :
    pickleOpens script =
      [("./traffic-signs-data/train.p", "train"),
       ("./traffic-signs-data/valid.p", "valid"),
       ("./traffic-signs-data/test.p", "test")] ∧
    splitBinds script =
      [("X_train", "y_train", "train", "features", "labels"),
       ("X_validation", "y_validation", "valid", "features", "labels"),
       ("X_test", "y_test", "test", "features", "labels")] ∧
    (script.all fun s => match s with
      | .bindSplit _ _ _ kx ky => kx == "features" && ky == "labels"
      | _ => true) = true ∧
    printCalls script = [("Test Accuracy: \x7b\x7d%", 2)] ∧
    (∀ score1 : ℚ, (printedAccuracy score1 * 100).den = 1) := by
  refine ⟨by decide, by decide, by decide, by decide, ?_⟩
  intro score1
  have h : printedAccuracy score1 * 100 =
      ((roundHalfEven (score1 * 100 * 10 ^ 2) : ℤ) : ℚ) := by
    unfold printedAccuracy pyRound
    norm_num
  rw [h]
  exact Rat.den_intCast _

/-- Specialization of `getD_map_eq` to a map that sends `[]` to `[]`. -/
theorem getD_map_nil {α β : Type} (f : List α → List β) (hf : f [] = [])
    (l : List (List α)) (i : Nat) :
    (l.map f).getD i [] = f (l.getD i []) := by
  have h := getD_map_eq f [] l i
  rwa [hf] at h

/-- C1: for every input array of shape `(N, H, W, 3)`, the grayscale
conversion `np.sum(X / 3, axis = 3, keepdims = True)` produces an array of
shape `(N, H, W, 1)` whose single channel at each pixel is the average
`(R + G + B) / 3` of the three input channels; the script applies this one
expression identically to the train, validation and test arrays. -/
theorem grayscale_conversion (X : Arr4) (n h w : Nat)
    (hX : shape4Is X n h w 3 = true) :
    shape4Is (grayscaleOf X) n h w 1 = true ∧
    (∀ i j k : Nat, ∀ r g b : ℚ,
      ((X.getD i []).getD j []).getD k [] = [r, g, b] →
      (((grayscaleOf X).getD i []).getD j []).getD k [] = [(r + g + b) / 3]) ∧
    grayscaleAssigns script =
      [("X_train_gray", "X_train"),
       ("X_validation_gray", "X_validation"),
       ("X_test_gray", "X_test")] := by
  refine ⟨?_, ?_, by decide⟩
  · simp only [shape4Is, grayscaleOf, List.all_eq_true, Bool.and_eq_true,
      beq_iff_eq, List.length_map, List.mem_map] at hX ⊢
    obtain ⟨hlen, hall⟩ := hX
    refine ⟨hlen, ?_⟩
    rintro img' ⟨img, himg, rfl⟩
    obtain ⟨hilen, hiall⟩ := hall img himg
    refine ⟨by simpa using hilen, ?_⟩
    intro row' hrow'
    rw [List.mem_map] at hrow'
    obtain ⟨row, hrow, rfl⟩ := hrow'
    obtain ⟨hrlen, hrall⟩ := hiall row hrow
    refine ⟨by simpa using hrlen, ?_⟩
    intro px' hpx'
    rw [List.mem_map] at hpx'
    obtain ⟨px, hpx, rfl⟩ := hpx'
    simp
  · intro i j k r g b hpx
    have h1 : (grayscaleOf X).getD i [] =
        (X.getD i []).map (fun row => row.map fun px =>
          [(px.map (fun c => c / 3)).sum]) :=
      getD_map_nil _ rfl X i
    have h2 : ((X.getD i []).map (fun row => row.map fun px =>
          [(px.map (fun c => c / 3)).sum])).getD j [] =
        ((X.getD i []).getD j []).map (fun px =>
          [(px.map (fun c => c / 3)).sum]) :=
      getD_map_nil _ rfl _ j
    have hk : k < (((X.getD i []).getD j []).length) := by
      by_contra hk
      rw [List.getD_eq_default _ _ (Nat.le_of_not_lt hk)] at hpx
      cases hpx
    have h3 : ((((X.getD i []).getD j [])).map (fun px =>
          [(px.map (fun c => c / 3)).sum])).getD k [] =
        [(((((X.getD i []).getD j []).getD k [])).map (fun c => c / 3)).sum] := by
      rw [List.getD_eq_getElem _ _ (by simpa using hk), List.getElem_map,
        List.getD_eq_getElem _ _ hk]
    rw [h1, h2, h3, hpx]
    simp only [List.map_cons, List.map_nil, List.sum_cons, List.sum_nil,
      List.cons.injEq, and_true]
    ring

/-- Witness for C1 at the one-pixel array `[[[[30, 60, 90]]]]`. -/
theorem grayscale_conversion_witness :
    shape4Is [[[[(30 : ℚ), 60, 90]]]] 1 1 1 3 = true ∧
    (shape4Is (grayscaleOf [[[[(30 : ℚ), 60, 90]]]]) 1 1 1 1 = true ∧
     (∀ i j k : Nat, ∀ r g b : ℚ,
       ((([[[[(30 : ℚ), 60, 90]]]] : Arr4).getD i []).getD j []).getD k [] = [r, g, b] →
       ((((grayscaleOf [[[[(30 : ℚ), 60, 90]]]]).getD i []).getD j []).getD k []) =
         [(r + g + b) / 3]) ∧
     grayscaleAssigns script =
       [("X_train_gray", "X_train"),
        ("X_validation_gray", "X_validation"),
        ("X_test_gray", "X_test")]) :=
  ⟨by decide, grayscale_conversion [[[[(30 : ℚ), 60, 90]]]] 1 1 1 (by decide)⟩

/-- C2: the normalization `(x - 128) / 128` maps every array whose entries
lie in `[0, 255]` (as the grayscale arrays derived from uint8 RGB pixels
do) to an array all of whose entries lie in `[-1, 1]`; the script applies
it identically to the train, validation and test grayscale arrays. -/
theorem normalization_range (X : Arr4)
    (hX : ∀ x : ℚ, entryMem x X → 0 ≤ x ∧ x ≤ 255) :
    (∀ y : ℚ, entryMem y (normalizeArr X) → -1 ≤ y ∧ y ≤ 1) ∧
    normalizeAssigns script =
      [("X_train_gray_norm", "X_train_gray"),
       ("X_validation_gray_norm", "X_validation_gray"),
       ("X_test_gray_norm", "X_test_gray")] := by
  refine ⟨?_, by decide⟩
  intro y hy
  obtain ⟨x, hx, rfl⟩ : ∃ x : ℚ, entryMem x X ∧ y = normalizeVal x := by
    obtain ⟨img', himg', row', hrow', px', hpx', hymem⟩ := hy
    simp only [normalizeArr, List.mem_map] at himg'
    obtain ⟨img, himg, rfl⟩ := himg'
    simp only [List.mem_map] at hrow'
    obtain ⟨row, hrow, rfl⟩ := hrow'
    simp only [List.mem_map] at hpx'
    obtain ⟨px, hpx, rfl⟩ := hpx'
    simp only [List.mem_map] at hymem
    obtain ⟨x, hxmem, rfl⟩ := hymem
    exact ⟨x, ⟨img, himg, row, hrow, px, hpx, hxmem⟩, rfl⟩
  obtain ⟨h0, h255⟩ := hX x hx
  constructor
  · unfold normalizeVal
    rw [le_div_iff₀ (by norm_num : (0 : ℚ) < 128)]
    linarith
  · unfold normalizeVal
    rw [div_le_one (by norm_num : (0 : ℚ) < 128)]
    linarith

/-- Witness for C2 at the one-pixel two-channel array `[[[[0, 255]]]]`,
whose entries are the extreme admissible values. -/
theorem normalization_range_witness :
    (∀ y : ℚ, entryMem y (normalizeArr [[[[(0 : ℚ), 255]]]]) → -1 ≤ y ∧ y ≤ 1) ∧
    normalizeAssigns script =
      [("X_train_gray_norm", "X_train_gray"),
       ("X_validation_gray_norm", "X_validation_gray"),
       ("X_test_gray_norm", "X_test_gray")] :=
  normalization_range [[[[(0 : ℚ), 255]]]] (by
    intro x hx
    simp only [entryMem, List.mem_singleton, List.mem_cons,
      List.not_mem_nil, or_false, exists_eq_left] at hx
    rcases hx with rfl | rfl <;> norm_num)

/-- C8: `sklearn.utils.shuffle(X_train, y_train)` applies one shared
permutation to the feature and the label list, so the zipped list of
feature-label pairs after the shuffle is a permutation of the one before
(every post-shuffle pair occurs among the pre-shuffle pairs), and the
script's only shuffle call targets the training split — the validation
and test splits are never shuffled. -/
theorem shuffle_pairs_preserved {α β : Type} (dx : α) (dy : β)
    (perm : List Nat) (xs : List α) (ys : List β) (n : Nat)
    (hperm : perm.Perm (List.range n)) (hx : xs.length = n)
    (hy : ys.length = n) :
    ((shuffleWith dx perm xs).zip (shuffleWith dy perm ys)).Perm (xs.zip ys) ∧
    (∀ p ∈ (shuffleWith dx perm xs).zip (shuffleWith dy perm ys),
      p ∈ xs.zip ys) ∧
    shuffleCalls script = [("X_train", "y_train")] := by
  have hzip : (shuffleWith dx perm xs).zip (shuffleWith dy perm ys) =
      perm.map (fun idx => (xs.getD idx dx, ys.getD idx dy)) := by
    unfold shuffleWith
    rw [List.zip_map']
  have hp : ((shuffleWith dx perm xs).zip
      (shuffleWith dy perm ys)).Perm (xs.zip ys) := by
    rw [hzip, ← range_map_getD_zip dx dy xs ys n hx hy]
    exact hperm.map _
  exact ⟨hp, fun p hpmem => hp.mem_iff.mp hpmem, by decide⟩

/-- Witness for C8: the transposition `[1, 0]` applied to two concrete
two-element lists. -/
theorem shuffle_pairs_preserved_witness :
    (((shuffleWith (0 : ℚ) [1, 0] [10, 20]).zip
        (shuffleWith (0 : ℚ) [1, 0] [30, 40])).Perm
      ([(10 : ℚ), 20].zip [(30 : ℚ), 40])) ∧
    (∀ p ∈ (shuffleWith (0 : ℚ) [1, 0] [10, 20]).zip
        (shuffleWith (0 : ℚ) [1, 0] [30, 40]),
      p ∈ [(10 : ℚ), 20].zip [(30 : ℚ), 40]) ∧
    shuffleCalls script = [("X_train", "y_train")] :=
  shuffle_pairs_preserved 0 0 [1, 0] [10, 20] [30, 40] 2
    (by decide) (by decide) (by decide)

/-- C9: for grayscale values derived from uint8 channels in `[0, 255]`,
the normalized value `(x - 128) / 128` lies in `[-1, 127/128]`: it never
reaches `1`, the upper bound `127/128` is attained at the all-255 pixel,
and the lower bound `-1` is attained exactly when all three channels are
`0`. -/
theorem normalized_gray_exact_range (r g b : Nat)
    (hr : r ≤ 255) (hg : g ≤ 255) (hb : b ≤ 255) :
    -1 ≤ normalizeVal (grayOfRGB r g b) ∧
    normalizeVal (grayOfRGB r g b) ≤ 127 / 128 ∧
    normalizeVal (grayOfRGB r g b) ≠ 1 ∧
    (normalizeVal (grayOfRGB r g b) = -1 ↔ r = 0 ∧ g = 0 ∧ b = 0) ∧
    normalizeVal (grayOfRGB 255 255 255) = 127 / 128 := by
  have key : normalizeVal (grayOfRGB r g b) = ((r : ℚ) + g + b - 384) / 384 := by
    unfold normalizeVal grayOfRGB
    simp only [List.map_cons, List.map_nil, List.sum_cons, List.sum_nil]
    ring
  have hr' : (r : ℚ) ≤ 255 := by exact_mod_cast hr
  have hg' : (g : ℚ) ≤ 255 := by exact_mod_cast hg
  have hb' : (b : ℚ) ≤ 255 := by exact_mod_cast hb
  have hr0 : (0 : ℚ) ≤ r := Nat.cast_nonneg r
  have hg0 : (0 : ℚ) ≤ g := Nat.cast_nonneg g
  have hb0 : (0 : ℚ) ≤ b := Nat.cast_nonneg b
  refine ⟨?_, ?_, ?_, ?_, ?_⟩
  · rw [key, le_div_iff₀ (by norm_num : (0 : ℚ) < 384)]
    linarith
  · rw [key, div_le_div_iff₀ (by norm_num : (0 : ℚ) < 384)
      (by norm_num : (0 : ℚ) < 128)]
    linarith
  · rw [key]
    intro hcontra
    rw [div_eq_one_iff_eq (by norm_num : (384 : ℚ) ≠ 0)] at hcontra
    linarith
  · rw [key]
    constructor
    · intro h1
      rw [div_eq_iff (by norm_num : (384 : ℚ) ≠ 0)] at h1
      have hr00 : (r : ℚ) = 0 := by linarith
      have hg00 : (g : ℚ) = 0 := by linarith
      have hb00 : (b : ℚ) = 0 := by linarith
      exact ⟨by exact_mod_cast hr00, by exact_mod_cast hg00,
        by exact_mod_cast hb00⟩
    · rintro ⟨rfl, rfl, rfl⟩
      norm_num
  · unfold normalizeVal grayOfRGB
    norm_num

/-- Witness for C9 at the all-zero pixel. -/
theorem normalized_gray_exact_range_witness :
    -1 ≤ normalizeVal (grayOfRGB 0 0 0) ∧
    normalizeVal (grayOfRGB 0 0 0) ≤ 127 / 128 ∧
    normalizeVal (grayOfRGB 0 0 0) ≠ 1 ∧
    (normalizeVal (grayOfRGB 0 0 0) = -1 ↔ (0 : Nat) = 0 ∧ (0 : Nat) = 0 ∧ (0 : Nat) = 0) ∧
    normalizeVal (grayOfRGB 255 255 255) = 127 / 128 :=
  normalized_gray_exact_range 0 0 0 (by decide) (by decide) (by decide)

/-- C10: the final Dense layer of the model has 43 units, so every row of
`predicted_x` has 43 entries and `np.argmax` over axis 1 returns class
indices strictly below 43. -/
theorem predicted_classes_lt_43 (rows : List (List ℚ))
    (hrows : ∀ row ∈ rows, row.length = outputUnits cnn_model_layers) :
    outputUnits cnn_model_layers = 43 ∧
    ∀ c ∈ np_argmax_axis1 rows, c < 43 := by
  refine ⟨by decide, ?_⟩
  intro c hc
  simp only [np_argmax_axis1, List.mem_map] at hc
  obtain ⟨row, hrow, rfl⟩ := hc
  have hlen : row.length = 43 := (hrows row hrow).trans (by decide)
  cases row with
  | nil => simp at hlen
  | cons x xs =>
      have hxs : xs.length = 42 := by simpa using hlen
      simp only [np_argmax]
      have hb := argmaxAux_lt xs x 1 0 (by norm_num)
      omega

/-- Witness for C10 at a single all-zero probability row of length 43. -/
theorem predicted_classes_lt_43_witness :
    outputUnits cnn_model_layers = 43 ∧
    ∀ c ∈ np_argmax_axis1 [List.replicate 43 (0 : ℚ)], c < 43 :=
  predicted_classes_lt_43 [List.replicate 43 (0 : ℚ)] (by decide)

end TrafficSigns